import Mathlib

/-!
Verification development for the AWS Security & Compliance chatbot
(`app.py` / `app+gpt.py`): a retrieval-augmented generation pipeline with a
Bedrock primary model, an optional ChatGPT fallback, a Chroma vector index,
and per-session in-memory chat history.

The Python sources are shallowly embedded: external providers (the Bedrock
chat model, the OpenAI client, the embedding model) are parameters of type
`List Msg → Except String String` resp. `String → E`; the process-wide
session dictionary `store` is an explicit association list threaded through
the functions; filesystem persistence of the vector index is an explicit
`Option` state.  Python strings are Lean `String`s (`str.lower`,
`str.strip`, `in`, `"sep".join` are re-implemented below with Python's
semantics).
-/

/-- Python whitespace characters, as used by `str.strip()`. -/
def isPyWs (c : Char) : Bool :=
  c = ' ' || c = '\t' || c = '\n' || c = '\r' || c = '\x0b' || c = '\x0c'

/-- `not s.strip()` in Python: the string is empty or whitespace-only. -/
def isBlank (s : String) : Bool :=
  s.toList.all isPyWs

/-- Python `s.strip()`: remove leading and trailing whitespace. -/
def pyStrip (s : String) : String :=
  String.mk (((s.toList.dropWhile isPyWs).reverse.dropWhile isPyWs).reverse)

/-- Python `needle in hay`: contiguous-substring test. -/
def strContains (hay needle : String) : Bool :=
  hay.toList.tails.any (fun t => needle.toList.isPrefixOf t)

/-- Python `s.lower()` (character-wise lowercasing; the marker string the
code searches for is ASCII). -/
def pyLower (s : String) : String :=
  String.mk (s.toList.map Char.toLower)

/-- Python `"sep".join(xs)`. -/
def pyJoin (sep : String) : List String → String
  | [] => ""
  | [x] => x
  | x :: y :: xs => x ++ sep ++ pyJoin sep (y :: xs)

/-- The degenerate-primary-answer check of `ask_secure_bot`
(`app+gpt.py` line 153):
`"unable to respond" in answer.lower() or not answer.strip()`. -/
def isDegenerate (answer : String) : Bool :=
  strContains (pyLower answer) ("unable to respond") || isBlank answer

/-- `SECURITY_CONTEXT` (`app+gpt.py` lines 109-115, identical in `app.py`). -/
def SECURITY_CONTEXT : String :=
  "\nYou are an AWS Security & Compliance expert.\nExplain cybersecurity and compliance frameworks (FISMA, NIST 800-53, CIS, FedRAMP)\nand how to implement them using AWS services such as IAM, Config, GuardDuty,\nSecurityHub, CloudTrail, and CloudWatch.\nBe concise and provide AWS service mapping examples when possible.\n"

/-- `ctx = "\n\n".join([d.page_content for d in ctx_docs]) if ctx_docs else ""`
(`app+gpt.py` line 123, `app.py` line 107). -/
def ctxOf (chunks : List String) : String :=
  if chunks.isEmpty then "" else pyJoin "\n\n" chunks

/-- The f-string of `ask_bedrock` (`app+gpt.py` lines 124-130, identically
`ask_secure_bot` in `app.py` lines 108-114): the composed prompt. -/
def composePrompt (ctx question : String) : String :=
  SECURITY_CONTEXT ++ "\n\nContext:\n" ++ ctx ++ "\n\nQuestion: " ++ question ++ "\n"

/-- Message roles used in the pipeline (LangChain `HumanMessage`/AI reply,
OpenAI `system`/`user` roles). -/
inductive Role
  | human
  | ai
  | system
  | user
deriving DecidableEq, Repr

/-- A chat message: role plus content. -/
abbrev Msg := Role × String

/-- The process-wide session dictionary `store` (`app+gpt.py` line 98),
modelled as an association list from session id to transcript. -/
abbrev Store := List (String × List Msg)

/-- `get_session_history` (`app+gpt.py` lines 99-102): return the session's
history, creating an empty entry when the id is absent.  The Python function
mutates the dict; the model returns the (possibly extended) store. -/
def get_session_history (store : Store) (session_id : String) : List Msg × Store :=
  if (store.lookup session_id).isSome then
    ((store.lookup session_id).getD [], store)
  else
    ([], (session_id, []) :: store)

/-- Overwrite one session's transcript in the store (the effect of
`InMemoryChatMessageHistory.add_messages` through the dict entry). -/
def setSession (store : Store) (session_id : String) (h : List Msg) : Store :=
  match store with
  | [] => [(session_id, h)]
  | (k, v) :: rest =>
      if k = session_id then (k, h) :: rest else (k, v) :: setSession rest session_id h

/-- What reading a session's transcript from the dict yields. -/
def readHistory (store : Store) (session_id : String) : List Msg :=
  (store.lookup session_id).getD []

/-- `with_message_history.invoke([HumanMessage(content=prompt)], ...)`
(`app+gpt.py` lines 131-134): `RunnableWithMessageHistory` loads (creating if
absent) the session history, passes history ++ input to the model, and on
success appends the input message and the reply to the history; on a raised
provider error nothing is appended (the lazily created empty entry remains). -/
def invokeWithHistory (llm : List Msg → Except String String)
    (store : Store) (session_id : String) (content : String) :
    Except String String × Store :=
  match llm ((get_session_history store session_id).1 ++ [(Role.human, content)]) with
  | Except.ok out =>
      (Except.ok out,
        setSession (get_session_history store session_id).2 session_id
          ((get_session_history store session_id).1
            ++ [(Role.human, content), (Role.ai, out)]))
  | Except.error e => (Except.error e, (get_session_history store session_id).2)

/-- `ask_bedrock` (`app+gpt.py` lines 120-135): retrieve chunks, compose the
prompt, invoke the Bedrock model with session memory. -/
def ask_bedrock (retrieve : String → List String)
    (llm : List Msg → Except String String)
    (store : Store) (question : String) (session_id : String) :
    Except String String × Store :=
  invokeWithHistory llm store session_id (composePrompt (ctxOf (retrieve question)) question)

/-- The message list `ask_chatgpt` sends to the OpenAI client
(`app+gpt.py` lines 142-143). -/
def fallbackMessages (question : String) : List Msg :=
  [(Role.system, SECURITY_CONTEXT), (Role.user, question)]

/-- `ask_chatgpt` (`app+gpt.py` lines 137-147): fallback completion; the
returned content is stripped.  No retrieval and no session memory. -/
def ask_chatgpt (gpt : List Msg → Except String String) (question : String) :
    Except String String :=
  (gpt (fallbackMessages question)).map pyStrip

/-- `ask_secure_bot` (`app+gpt.py` lines 149-162): Bedrock first; on a raised
error or a degenerate answer, fall back to ChatGPT; if that also raises,
return the dual-failure string.  The third component instruments the number
of fallback-provider invocations (the source calls `ask_chatgpt` at most
once, in the single `except` branch). -/
def ask_secure_bot (retrieve : String → List String)
    (llm gpt : List Msg → Except String String)
    (store : Store) (question : String) (session_id : String) :
    String × Store × Nat :=
  match ask_bedrock retrieve llm store question session_id with
  | (Except.ok answer, store') =>
      if isDegenerate answer then
        match ask_chatgpt gpt question with
        | Except.ok g => ("🤖 **ChatGPT Fallback:**\n\n" ++ g, store', 1)
        | Except.error e2 => ("❌ Both models failed: " ++ e2, store', 1)
      else
        ("🧠 **Bedrock:**\n\n" ++ answer, store', 0)
  | (Except.error _, store') =>
      match ask_chatgpt gpt question with
      | Except.ok g => ("🤖 **ChatGPT Fallback:**\n\n" ++ g, store', 1)
      | Except.error e2 => ("❌ Both models failed: " ++ e2, store', 1)

/-- The Streamlit handler's call `ask_secure_bot(user_question)`
(`app+gpt.py` line 176, `app.py` line 133): no session id is passed, so the
default `"sec-bot-ui"` applies. -/
def ui_ask (retrieve : String → List String)
    (llm gpt : List Msg → Except String String)
    (store : Store) (question : String) : String × Store × Nat :=
  ask_secure_bot retrieve llm gpt store question ("sec-bot-ui")

/-- Role labels, used only by `claimedCompose` below. -/
def roleName : Role → String
  | Role.human => "Human"
  | Role.ai => "AI"
  | Role.system => "System"
  | Role.user => "User"

/-- Modelled from the spec: the prompt assembly claimed by §4.5 / claim C3,
for comparison with the source's `composePrompt` — system context, then the
labeled Context block, then the prior session-history turns each prefixed by
role, then the question. -/
def claimedCompose (sys : String) (chunks : List String) (hist : List Msg)
    (q : String) : String :=
  sys ++ "\n\nContext:\n" ++ pyJoin "\n\n" chunks ++ "\n\n"
    ++ pyJoin "\n" (hist.map (fun m => roleName m.1 ++ ": " ++ m.2))
    ++ "\n\nQuestion: " ++ q ++ "\n"

/-- Modelled from the spec: the chunker itself is LangChain's
`RecursiveCharacterTextSplitter` (not part of this repository's sources, only
its call site `build_or_load_index` is).  Spec §4.1: overlapping fixed-size
chunks covering the document in order, each consecutive pair sharing
`overlap_length` characters, documents shorter than `max_chunk_length`
yielding exactly one chunk.  Sliding window with stride
`step = max_chunk_length - overlap_length`; the fuel argument (instantiated
with the document length, which bounds the number of steps) makes the
recursion structural. -/
def chunkAux (maxLen step : Nat) : Nat → List Char → List (List Char)
  | 0, l => [l]
  | fuel + 1, l =>
      if l.length ≤ maxLen ∨ step = 0 then [l]
      else l.take maxLen :: chunkAux maxLen step fuel (l.drop step)

/-- Modelled from the spec (§4.1): chunk a document (a character sequence)
with configuration `(maxLen, ov)`; see `chunkAux`. -/
def chunk_document (maxLen ov : Nat) (l : List Char) : List (List Char) :=
  chunkAux maxLen (maxLen - ov) l.length l

/-- `ceil((L - overlap) / (max - overlap))` over ℕ: for `L ≤ overlap` the
mathematical ceiling is `≤ 0` and this truncates to `0`, the least possible
chunk count. -/
def chunkCountFormula (maxLen ov L : Nat) : Nat :=
  (L - ov + (maxLen - ov) - 1) / (maxLen - ov)

/-- Chunk a text document with the configuration of `build_or_load_index`
(`app+gpt.py` line 83: `chunk_size=1000, chunk_overlap=100`). -/
def chunk_text (d : String) : List String :=
  (chunk_document 1000 100 d.toList).map (fun l => String.mk l)

/-- All chunks of all source documents (`app+gpt.py` lines 84-86). -/
def allChunks (docs : List String) : List String :=
  (docs.map (fun d => chunk_text d)).flatten

/-- `build_or_load_index` (`app+gpt.py` lines 78-90): if persisted data
exists at the fixed path, load it (no re-embedding); otherwise chunk every
source document, embed every chunk, and persist.  The filesystem state at
`INDEX_DIR` is the explicit `persisted` argument and the second component of
the result; the third component instruments the number of embedding-provider
calls. -/
def build_or_load_index {E : Type} (embed : String → E) (docs : List String)
    (persisted : Option (List (String × E))) :
    List (String × E) × Option (List (String × E)) × Nat :=
  match persisted with
  | some idx => (idx, some idx, 0)
  | none =>
      let idx := (allChunks docs).map (fun c => (c, embed c))
      (idx, some idx, (allChunks docs).length)

/-- Modelled from the spec: Chroma's similarity search is external to this
repository.  Spec §4.2 `search(query_text, k)`: embed the query, return the
`k` chunk texts with smallest embedding distance, ties broken by insertion
order (stable), fewer than `k` when fewer chunks exist.  `List.mergeSort` is
a stable sort. -/
def search {E : Type} (dist : E → E → Nat) (idx : List (String × E))
    (qv : E) (k : Nat) : List String :=
  ((idx.mergeSort (fun a b => Nat.ble (dist qv a.2) (dist qv b.2))).take k).map
    (fun p => p.1)

/-- `retriever = vectorstore.as_retriever(search_kwargs={"k": 4})` and
`retriever.invoke(question)` (`app+gpt.py` lines 93 and 122): top-k
retrieval with fixed `k = 4`. -/
def retriever_invoke {E : Type} (embed : String → E) (dist : E → E → Nat)
    (idx : List (String × E)) (question : String) : List String :=
  search dist idx (embed question) 4

theorem str_append_assoc (a b c : String) : a ++ b ++ c = a ++ (b ++ c) := by
  apply String.ext
  simp [String.data_append, List.append_assoc]

theorem str_empty_append (a : String) : "" ++ a = a := by
  apply String.ext
  simp [String.data_append]

theorem str_append_empty (a : String) : a ++ "" = a := by
  apply String.ext
  simp [String.data_append]

theorem chunkAux_base (maxLen step fuel : Nat) (l : List Char)
    (h : l.length ≤ maxLen) : chunkAux maxLen step fuel l = [l] := by
  cases fuel with
  | zero => rfl
  | succ fuel => simp [chunkAux, h]

theorem chunkAux_step (maxLen step fuel : Nat) (l : List Char)
    (hlen : maxLen < l.length) (hs : 0 < step) :
    chunkAux maxLen step (fuel + 1) l
      = l.take maxLen :: chunkAux maxLen step fuel (l.drop step) := by
  have hcond : ¬ (l.length ≤ maxLen ∨ step = 0) := by omega
  simp [chunkAux, hcond]

theorem chunkAux_head (maxLen step : Nat) (hs : 0 < step) :
    ∀ (fuel : Nat) (l : List Char), l.length ≤ fuel →
      ∃ rest, chunkAux maxLen step fuel l = l.take maxLen :: rest := by
  intro fuel
  cases fuel with
  | zero =>
      intro l hl
      have hnil : l = [] := List.eq_nil_of_length_eq_zero (by omega)
      exact ⟨[], by simp [chunkAux, hnil]⟩
  | succ fuel =>
      intro l hl
      by_cases hb : l.length ≤ maxLen
      · exact ⟨[], by rw [chunkAux_base _ _ _ _ hb, List.take_of_length_le hb]⟩
      · exact ⟨chunkAux maxLen step fuel (l.drop step),
          chunkAux_step maxLen step fuel l (by omega) hs⟩

theorem chunkAux_count (maxLen ov : Nat) (hov : ov < maxLen) :
    ∀ (fuel : Nat) (l : List Char), l.length ≤ fuel → ov < l.length →
      (chunkAux maxLen (maxLen - ov) fuel l).length
        = chunkCountFormula maxLen ov l.length := by
  intro fuel
  induction fuel with
  | zero => intro l hl hovl; omega
  | succ fuel IH =>
      intro l hl hovl
      by_cases hb : l.length ≤ maxLen
      · rw [chunkAux_base _ _ _ _ hb]
        simp only [List.length_singleton, chunkCountFormula]
        exact (Nat.div_eq_of_lt_le (by omega) (by omega)).symm
      · have hs : 0 < maxLen - ov := by omega
        rw [chunkAux_step _ _ _ _ (by omega) hs]
        simp only [List.length_cons]
        rw [IH (l.drop (maxLen - ov)) (by simp [List.length_drop]; omega)
          (by simp [List.length_drop]; omega)]
        simp only [chunkCountFormula, List.length_drop]
        have e1 : l.length - (maxLen - ov) - ov + (maxLen - ov) - 1
            = l.length - ov - 1 := by omega
        have e2 : l.length - ov + (maxLen - ov) - 1
            = l.length - ov - 1 + (maxLen - ov) := by omega
        rw [e1, e2, Nat.add_div_right _ hs]

theorem chunkAux_consec (maxLen ov : Nat) (hov : ov < maxLen) :
    ∀ (fuel : Nat) (l : List Char), l.length ≤ fuel →
      ∀ (i : Nat) (c₁ c₂ : List Char) (rest : List (List Char)),
        (chunkAux maxLen (maxLen - ov) fuel l).drop i = c₁ :: c₂ :: rest →
        c₁.length = maxLen ∧ (c₁.drop (maxLen - ov)).length = ov ∧
          c₁.drop (maxLen - ov) = c₂.take ov := by
  intro fuel
  induction fuel with
  | zero =>
      intro l hl i c₁ c₂ rest h
      have := congrArg List.length h
      simp [chunkAux] at this
      omega
  | succ fuel IH =>
      intro l hl i c₁ c₂ rest h
      by_cases hb : l.length ≤ maxLen
      · rw [chunkAux_base _ _ _ _ hb] at h
        have := congrArg List.length h
        simp at this
        omega
      · have hs : 0 < maxLen - ov := by omega
        rw [chunkAux_step _ _ _ _ (by omega) hs] at h
        cases i with
        | zero =>
            simp only [List.drop_zero, List.cons.injEq] at h
            obtain ⟨hc₁, htail⟩ := h
            obtain ⟨r2, hr2⟩ := chunkAux_head maxLen (maxLen - ov) hs fuel
              (l.drop (maxLen - ov)) (by simp [List.length_drop]; omega)
            rw [hr2] at htail
            have hc₂ : c₂ = (l.drop (maxLen - ov)).take maxLen :=
              (List.cons.injEq _ _ _ _ ▸ htail).1.symm
            subst hc₁
            refine ⟨?_, ?_, ?_⟩
            · simp [List.length_take]; omega
            · simp [List.length_drop, List.length_take]; omega
            · rw [hc₂, List.drop_take, List.take_take]
              congr 1
              omega
        | succ i =>
            rw [List.drop_succ_cons] at h
            exact IH (l.drop (maxLen - ov)) (by simp [List.length_drop]; omega)
              i c₁ c₂ rest h

theorem strContains_parts (a b c : String) : strContains (a ++ (b ++ c)) b = true := by
  unfold strContains
  rw [List.any_eq_true]
  refine ⟨b.toList ++ c.toList, ?_, ?_⟩
  · rw [List.mem_tails]
    exact ⟨a.toList, by simp [String.toList, String.data_append]⟩
  · exact List.isPrefixOf_iff_prefix.mpr (List.prefix_append _ _)

theorem strContains_suffix (a b : String) : strContains (a ++ b) b = true := by
  have h := strContains_parts a b ""
  rwa [str_append_empty] at h

theorem append_ne_empty_left (a b : String) (ha : a.data ≠ []) : a ++ b ≠ "" := by
  intro h
  apply ha
  have h2 := congrArg String.data h
  rw [String.data_append] at h2
  exact (List.append_eq_nil.mp h2).1

theorem pyJoin_decomp (sep c : String) :
    ∀ chunks : List String, c ∈ chunks →
      ∃ p s, pyJoin sep chunks = p ++ (c ++ s) := by
  intro chunks
  induction chunks with
  | nil => intro h; cases h
  | cons x xs IH =>
      intro h
      cases xs with
      | nil =>
          have hc : c = x := by simpa using h
          exact ⟨"", "", by simp [pyJoin, hc, str_empty_append, str_append_empty]⟩
      | cons y ys =>
          rcases List.mem_cons.mp h with hcx | hcin
          · subst hcx
            refine ⟨"", sep ++ pyJoin sep (y :: ys), ?_⟩
            rw [str_empty_append]
            exact str_append_assoc c sep (pyJoin sep (y :: ys))
          · obtain ⟨p, s, hps⟩ := IH hcin
            refine ⟨x ++ sep ++ p, s, ?_⟩
            show x ++ sep ++ pyJoin sep (y :: ys) = x ++ sep ++ p ++ (c ++ s)
            rw [hps, str_append_assoc (x ++ sep) p (c ++ s)]

theorem lookup_setSession_other (store : Store) (sid sid' : String) (h : List Msg)
    (hne : sid' ≠ sid) :
    (setSession store sid h).lookup sid' = store.lookup sid' := by
  have hb : (sid' == sid) = false := beq_eq_false_iff_ne.mpr hne
  induction store with
  | nil => simp [setSession, List.lookup, hb]
  | cons kv rest IH =>
      obtain ⟨k, v⟩ := kv
      by_cases hk : k = sid
      · subst hk
        simp [setSession, List.lookup, hb]
      · by_cases hk2 : sid' = k
        · subst hk2
          simp [setSession, hk, List.lookup]
        · have hb2 : (sid' == k) = false := beq_eq_false_iff_ne.mpr hk2
          simp [setSession, hk, List.lookup, hb2, IH]

theorem lookup_gsh_other (store : Store) (sid sid' : String) (hne : sid' ≠ sid) :
    ((get_session_history store sid).2).lookup sid' = store.lookup sid' := by
  have hb : (sid' == sid) = false := beq_eq_false_iff_ne.mpr hne
  unfold get_session_history
  by_cases hs : (store.lookup sid).isSome
  · simp [hs]
  · simp [hs, List.lookup, hb]

theorem lookup_invoke_other (llm : List Msg → Except String String)
    (store : Store) (sid sid' content : String) (hne : sid' ≠ sid) :
    ((invokeWithHistory llm store sid content).2).lookup sid' = store.lookup sid' := by
  unfold invokeWithHistory
  cases hr : llm ((get_session_history store sid).1 ++ [(Role.human, content)]) with
  | ok out => simp [lookup_setSession_other _ _ _ _ hne, lookup_gsh_other _ _ _ hne]
  | error e => simp [lookup_gsh_other _ _ _ hne]

theorem askbot_store (retrieve : String → List String)
    (llm gpt : List Msg → Except String String)
    (store : Store) (q sid : String) :
    (ask_secure_bot retrieve llm gpt store q sid).2.1
      = (ask_bedrock retrieve llm store q sid).2 := by
  unfold ask_secure_bot
  rcases hab : ask_bedrock retrieve llm store q sid with ⟨r, st⟩
  cases r with
  | ok a =>
      by_cases hd : isDegenerate a
      · cases hg : ask_chatgpt gpt q <;> simp [hd, hg]
      · simp [hd]
  | error e => cases hg : ask_chatgpt gpt q <;> simp [hg]

theorem lookup_askbot_other (retrieve : String → List String)
    (llm gpt : List Msg → Except String String)
    (store : Store) (q sid sid' : String) (hne : sid' ≠ sid) :
    ((ask_secure_bot retrieve llm gpt store q sid).2.1).lookup sid'
      = store.lookup sid' := by
  rw [askbot_store]
  unfold ask_bedrock
  exact lookup_invoke_other _ _ _ _ _ hne

example : isDegenerate "" = true := by decide

example : isDegenerate "   " = true := by decide

example : isDegenerate "I am Unable To Respond now" = true := by decide

example : isDegenerate "AC-2 enforces least privilege." = false := by decide

example : pyJoin "\n\n" ["a", "b"] = "a\n\nb" := by decide

example : pyStrip "  hi  " = "hi" := by decide

theorem ask_bedrock_const_ok (retrieve : String → List String)
    (ans : String) (store : Store) (q sid : String) :
    ask_bedrock retrieve (fun _ => Except.ok ans) store q sid
      = (Except.ok ans,
         setSession (get_session_history store sid).2 sid
           ((get_session_history store sid).1
             ++ [(Role.human, composePrompt (ctxOf (retrieve q)) q), (Role.ai, ans)])) :=
  rfl

theorem ask_bedrock_const_error (retrieve : String → List String)
    (e : String) (store : Store) (q sid : String) :
    ask_bedrock retrieve (fun _ => Except.error e) store q sid
      = (Except.error e, (get_session_history store sid).2) :=
  rfl

/-- C1: a degenerate primary answer (empty/whitespace-only, or containing
"unable to respond" case-insensitively) makes `ask_secure_bot` invoke the
fallback provider exactly once (the instrumented call count is 1) and, when
the fallback answers, return that answer under the ChatGPT-Fallback label; a
non-degenerate primary answer never invokes the fallback (count 0) and is
returned under the Bedrock label. -/
theorem C1_fallback_trigger (retrieve : String → List String)
    (gpt : List Msg → Except String String) (store : Store) (q sid ans : String) :
    (isDegenerate ans = true →
      (ask_secure_bot retrieve (fun _ => Except.ok ans) gpt store q sid).2.2 = 1
      ∧ ∀ g, gpt (fallbackMessages q) = Except.ok g →
          (ask_secure_bot retrieve (fun _ => Except.ok ans) gpt store q sid).1
            = "🤖 **ChatGPT Fallback:**\n\n" ++ pyStrip g)
    ∧ (isDegenerate ans = false →
      (ask_secure_bot retrieve (fun _ => Except.ok ans) gpt store q sid).2.2 = 0
      ∧ (ask_secure_bot retrieve (fun _ => Except.ok ans) gpt store q sid).1
          = "🧠 **Bedrock:**\n\n" ++ ans) := by
  constructor
  · intro hd
    constructor
    · unfold ask_secure_bot
      rw [ask_bedrock_const_ok]
      cases hg : ask_chatgpt gpt q <;> simp [hd, hg]
    · intro g hg
      unfold ask_secure_bot
      rw [ask_bedrock_const_ok]
      simp [hd, ask_chatgpt, hg, Except.map]
  · intro hd
    constructor <;>
      · unfold ask_secure_bot
        rw [ask_bedrock_const_ok]
        simp [hd]

theorem C1_fallback_trigger_witness :
    isDegenerate "" = true
    ∧ (ask_secure_bot (fun _ => []) (fun _ => Except.ok ("")) (fun _ => Except.ok ("gpt-ans"))
        [] ("q") ("s")).2.2 = 1 :=
  ⟨by decide,
   ((C1_fallback_trigger (fun _ => []) (fun _ => Except.ok ("gpt-ans")) [] "q" "s" "").1
     (by decide)).1⟩

/-- C2: when both providers raise, the pipeline returns (it is a total
function into `String`) the single dual-failure string, which states that
both models failed, contains the last error's description, and is not
empty. -/
theorem C2_dual_failure (retrieve : String → List String)
    (store : Store) (q sid e1 e2 : String) :
    (ask_secure_bot retrieve (fun _ => Except.error e1) (fun _ => Except.error e2)
        store q sid).1
      = "❌ Both models failed: " ++ e2
    ∧ strContains
        (ask_secure_bot retrieve (fun _ => Except.error e1) (fun _ => Except.error e2)
          store q sid).1 ("Both models failed") = true
    ∧ strContains
        (ask_secure_bot retrieve (fun _ => Except.error e1) (fun _ => Except.error e2)
          store q sid).1 e2 = true
    ∧ (ask_secure_bot retrieve (fun _ => Except.error e1) (fun _ => Except.error e2)
        store q sid).1 ≠ "" := by
  have h1 : (ask_secure_bot retrieve (fun _ => Except.error e1) (fun _ => Except.error e2)
      store q sid).1 = "❌ Both models failed: " ++ e2 := by
    unfold ask_secure_bot
    rw [ask_bedrock_const_error]
    simp [ask_chatgpt, Except.map]
  have hlit : ("❌ Both models failed: " : String) = "❌ " ++ ("Both models failed" ++ ": ") := by
    decide
  refine ⟨h1, ?_, ?_, ?_⟩
  · rw [h1, hlit, str_append_assoc, str_append_assoc]
    exact strContains_parts _ _ _
  · rw [h1]
    exact strContains_suffix _ _
  · rw [h1]
    exact append_ne_empty_left _ _ (by decide)

/-- C3 (amended): the composed prompt is assembled deterministically as the
system context, then the labeled Context block joining the retrieved chunks
with a blank-line separator (empty body when there are no chunks), then the
new question; every retrieved chunk's exact text appears in the prompt
before the question.  Prior session-history turns are not part of the
prompt string (it depends only on the chunks and the question); they are
passed as separate role-tagged messages preceding the prompt message. -/
theorem C3_prompt_order (chunks : List String) (q c : String) :
    ctxOf [] = ""
    ∧ composePrompt (ctxOf chunks) q
        = SECURITY_CONTEXT
            ++ ("\n\nContext:\n" ++ (ctxOf chunks ++ ("\n\nQuestion: " ++ (q ++ "\n"))))
    ∧ (c ∈ chunks →
        ∃ pre mid, composePrompt (ctxOf chunks) q
          = pre ++ (c ++ (mid ++ ("\n\nQuestion: " ++ (q ++ "\n"))))) := by
  refine ⟨rfl, ?_, ?_⟩
  · simp only [composePrompt, str_append_assoc]
  · intro hc
    cases chunks with
    | nil => cases hc
    | cons x xs =>
        have hctx : ctxOf (x :: xs) = pyJoin "\n\n" (x :: xs) := by simp [ctxOf]
        obtain ⟨p, s, hps⟩ := pyJoin_decomp "\n\n" c (x :: xs) hc
        refine ⟨SECURITY_CONTEXT ++ ("\n\nContext:\n" ++ p), s, ?_⟩
        rw [hctx, hps]
        simp only [composePrompt, str_append_assoc]

theorem C3_prompt_order_witness :
    ("AC-2 enforces least privilege via IAM." ∈
        ["AC-2 enforces least privilege via IAM."])
    ∧ ∃ pre mid,
        composePrompt (ctxOf ["AC-2 enforces least privilege via IAM."]) ("What is AC-2?")
          = pre ++ ("AC-2 enforces least privilege via IAM."
              ++ (mid ++ ("\n\nQuestion: " ++ ("What is AC-2?" ++ "\n")))) :=
  ⟨by decide,
   (C3_prompt_order ["AC-2 enforces least privilege via IAM."] ("What is AC-2?")
      ("AC-2 enforces least privilege via IAM.")).2.2 (by decide)⟩

set_option maxRecDepth 100000 in
/-- C3 counterexample: for a request whose session history holds the turn
"PRIOR-TURN-XYZ", the prompt actually composed by the code does not contain
that turn at all, while the assembly claimed by the spec (history turns
between the Context block and the question, `claimedCompose`) does — so the
composed prompt is not assembled in the claimed order. -/
theorem C3_history_counterexample :
    strContains
      (composePrompt (ctxOf ["AC-2 enforces least privilege via IAM."]) ("What is AC-2?"))
      ("PRIOR-TURN-XYZ") = false
    ∧ strContains
      (claimedCompose SECURITY_CONTEXT ["AC-2 enforces least privilege via IAM."]
        [(Role.human, "PRIOR-TURN-XYZ")] ("What is AC-2?"))
      ("PRIOR-TURN-XYZ") = true := by
  constructor <;> decide

/-- C4 (amended): for `overlap < max`, whenever `overlap < L` the chunker
produces exactly `ceil((L-overlap)/(max-overlap))` chunks; a document
shorter than `max` yields exactly one chunk (so for `L ≤ overlap` the count
is 1, not the formula's 0); every pair of consecutive chunks consists of a
full `max`-length chunk whose final `overlap` characters are exactly the
next chunk's first `overlap` characters. -/
theorem C4_chunk_contract (maxLen ov : Nat) (l : List Char) (hov : ov < maxLen) :
    (ov < l.length →
      (chunk_document maxLen ov l).length = chunkCountFormula maxLen ov l.length)
    ∧ (l.length < maxLen → chunk_document maxLen ov l = [l])
    ∧ (∀ i c₁ c₂ rest,
        (chunk_document maxLen ov l).drop i = c₁ :: c₂ :: rest →
        c₁.length = maxLen ∧ (c₁.drop (maxLen - ov)).length = ov ∧
          c₁.drop (maxLen - ov) = c₂.take ov) := by
  refine ⟨?_, ?_, ?_⟩
  · intro hl
    exact chunkAux_count maxLen ov hov l.length l le_rfl hl
  · intro hl
    exact chunkAux_base _ _ _ _ (le_of_lt hl)
  · intro i c₁ c₂ rest h
    exact chunkAux_consec maxLen ov hov l.length l le_rfl i c₁ c₂ rest h

theorem C4_chunk_contract_witness :
    ((3 : Nat) < 10 ∧ 3 < ("AC-2: enforce least privilege.".toList).length)
    ∧ (chunk_document 10 3 ("AC-2: enforce least privilege.".toList)).length
        = chunkCountFormula 10 3 ("AC-2: enforce least privilege.".toList).length :=
  ⟨⟨by decide, by decide⟩,
   (C4_chunk_contract 10 3 ("AC-2: enforce least privilege.".toList) (by decide)).1
     (by decide)⟩

/-- C4 counterexample: with the repository's own configuration
`(max, overlap) = (1000, 100)` and a 50-character document, the chunker
yields one chunk but `ceil((L-overlap)/(max-overlap)) = ceil(-50/900) = 0`
(the ℕ formula below also evaluates to 0), so the claimed chunk-count
formula fails for documents no longer than the overlap. -/
theorem C4_formula_counterexample :
    ¬ ((chunk_document 1000 100 (List.replicate 50 'x')).length
        = chunkCountFormula 1000 100 (List.replicate 50 'x').length) := by
  decide

/-- C5: if persisted index data exists it is loaded and returned unchanged
with zero embedding-provider calls; a second `build_or_load_index` on the
persistence state left by any first call returns the same index, leaves the
persisted contents unchanged, and embeds nothing; only on absent persisted
data are the documents chunked, embedded (once per chunk), and persisted. -/
theorem C5_build_or_load_idempotent (E : Type) (embed : String → E)
    (docs : List String) (idx : List (String × E))
    (persisted : Option (List (String × E))) :
    build_or_load_index embed docs (some idx) = (idx, some idx, 0)
    ∧ build_or_load_index embed docs (build_or_load_index embed docs persisted).2.1
        = ((build_or_load_index embed docs persisted).1,
           (build_or_load_index embed docs persisted).2.1, 0)
    ∧ build_or_load_index embed docs none
        = ((allChunks docs).map (fun c => (c, embed c)),
           some ((allChunks docs).map (fun c => (c, embed c))),
           (allChunks docs).length) := by
  refine ⟨rfl, ?_, rfl⟩
  cases persisted <;> rfl

/-- C6: session isolation — running the pipeline under session id `A` never
changes what is read from a different session id `B`; and
`get_session_history` returns the existing transcript unchanged when the id
is present, otherwise creates an empty transcript recorded under exactly
that key. -/
theorem C6_session_isolation (store : Store) (A B : String)
    (retrieve : String → List String)
    (llm gpt : List Msg → Except String String) (q : String)
    (hAB : A ≠ B) :
    ((ask_secure_bot retrieve llm gpt store q A).2.1).lookup B = store.lookup B
    ∧ (∀ hA, store.lookup A = some hA → get_session_history store A = (hA, store))
    ∧ (store.lookup A = none →
        get_session_history store A = ([], (A, []) :: store)
        ∧ ((A, []) :: store).lookup A = some []) := by
  refine ⟨?_, ?_, ?_⟩
  · exact lookup_askbot_other retrieve llm gpt store q A B (Ne.symm hAB)
  · intro hA hlk
    simp [get_session_history, hlk]
  · intro hlk
    exact ⟨by simp [get_session_history, hlk], by simp [List.lookup]⟩

theorem C6_session_isolation_witness :
    ("session-a" : String) ≠ "session-b"
    ∧ ((ask_secure_bot (fun _ => []) (fun _ => Except.ok ("hello"))
          (fun _ => Except.error ("")) [("session-b", [(Role.ai, "old")])]
          ("q") ("session-a")).2.1).lookup ("session-b")
        = ([("session-b", [(Role.ai, "old")])] : Store).lookup ("session-b") :=
  ⟨by decide,
   (C6_session_isolation [("session-b", [(Role.ai, "old")])] "session-a" "session-b"
      (fun _ => []) (fun _ => Except.ok ("hello")) (fun _ => Except.error (""))
      "q" (by decide)).1⟩

/-- C7 (amended): on primary success with a non-degenerate answer, the pair
(composed prompt, answer) — the prompt, which embeds the question, not the
bare question — is appended to the session named by the request's session
id, and the answer is returned under the Bedrock label; on fallback success
the answer is returned under the ChatGPT-Fallback label but nothing is
appended to the session (only the lazily created empty entry remains). -/
theorem C7_session_append (retrieve : String → List String)
    (gpt : List Msg → Except String String) (store : Store)
    (q sid ans e g : String) (h : List Msg) :
    (store.lookup sid = some h → isDegenerate ans = false →
      ask_secure_bot retrieve (fun _ => Except.ok ans) gpt store q sid
        = ("🧠 **Bedrock:**\n\n" ++ ans,
           setSession store sid
             (h ++ [(Role.human, composePrompt (ctxOf (retrieve q)) q), (Role.ai, ans)]),
           0))
    ∧ (gpt (fallbackMessages q) = Except.ok g →
        ask_secure_bot retrieve (fun _ => Except.error e) gpt store q sid
          = ("🤖 **ChatGPT Fallback:**\n\n" ++ pyStrip g,
             (get_session_history store sid).2, 1)) := by
  constructor
  · intro hlk hd
    have hgsh : get_session_history store sid = (h, store) := by
      simp [get_session_history, hlk]
    unfold ask_secure_bot
    rw [ask_bedrock_const_ok, hgsh]
    simp [hd]
  · intro hg
    unfold ask_secure_bot
    rw [ask_bedrock_const_error]
    simp [ask_chatgpt, hg, Except.map]

theorem C7_session_append_witness :
    ask_secure_bot (fun _ => []) (fun _ => Except.error ("e")) (fun _ => Except.ok ("gg"))
        [] ("q") ("s")
      = ("🤖 **ChatGPT Fallback:**\n\n" ++ pyStrip ("gg"),
         (get_session_history [] ("s")).2, 1) :=
  (C7_session_append (fun _ => []) (fun _ => Except.ok ("gg")) [] ("q") ("s")
    ("x") ("e") ("gg") []).2 rfl

/-- C7 counterexample: a run in which the fallback succeeds (the answer is
returned under the fallback label) yet the session history for the
request's session id stays empty — no (question, answer) pair is appended
on fallback success; and a primary-success run under session id "s" whose
recorded history does not contain the pair (question, answer) either (the
human turn recorded is the composed prompt, not the bare question). -/
theorem C7_append_counterexample :
    ((ask_secure_bot (fun _ => []) (fun _ => Except.error ("boom"))
        (fun _ => Except.ok ("fallback-ans")) [] ("q") ("sec-bot-ui")).1
      = "🤖 **ChatGPT Fallback:**\n\nfallback-ans"
    ∧ (ask_secure_bot (fun _ => []) (fun _ => Except.error ("boom"))
        (fun _ => Except.ok ("fallback-ans")) [] ("q") ("sec-bot-ui")).2.1
      = [("sec-bot-ui", [])])
    ∧ ¬ (Role.human, "q") ∈ readHistory
        (ask_secure_bot (fun _ => []) (fun _ => Except.ok ("fine-answer"))
          (fun _ => Except.error ("x")) [] ("q") ("s")).2.1 ("s") := by
  refine ⟨⟨?_, ?_⟩, ?_⟩ <;> decide

/-- C8: the retriever delegates to the index's search with fixed `k = 4`;
the result is an ordered sequence with `min 4 n` elements for an index of
`n` chunks, so an empty index yields the empty sequence (not an error) and
an index with fewer than 4 chunks yields exactly all of its chunk texts. -/
theorem C8_retriever_topk (E : Type) (embed : String → E) (dist : E → E → Nat)
    (idx : List (String × E)) (q : String) :
    retriever_invoke embed dist idx q = search dist idx (embed q) 4
    ∧ (retriever_invoke embed dist idx q).length = min 4 idx.length
    ∧ (idx = [] → retriever_invoke embed dist idx q = [])
    ∧ (idx.length < 4 →
        (retriever_invoke embed dist idx q).Perm (idx.map (fun p => p.1))) := by
  refine ⟨rfl, ?_, ?_, ?_⟩
  · simp [retriever_invoke, search, List.length_take, List.length_mergeSort]
  · intro h
    subst h
    simp [retriever_invoke, search, List.mergeSort_nil]
  · intro h
    have hlen : (idx.mergeSort
        (fun a b => Nat.ble (dist (embed q) a.2) (dist (embed q) b.2))).length ≤ 4 := by
      rw [List.length_mergeSort]
      omega
    unfold retriever_invoke search
    rw [List.take_of_length_le hlen]
    exact List.Perm.map _ (List.mergeSort_perm idx _)

theorem C8_retriever_topk_witness :
    ([(("c1" : String), (5 : Nat)), ("c2", 3)] : List (String × Nat)).length < 4
    ∧ (retriever_invoke (fun _ => (0 : Nat)) (fun a b => a + b)
        [("c1", 5), ("c2", 3)] ("q")).Perm
        (([(("c1" : String), (5 : Nat)), ("c2", 3)]).map (fun p => p.1)) :=
  ⟨by decide,
   (C8_retriever_topk Nat (fun _ => 0) (fun a b => a + b)
      [("c1", 5), ("c2", 3)] "q").2.2.2 (by decide)⟩

/-- C9: the UI handler answers every question under the single default
session key "sec-bot-ui" (it passes no session id): `ui_ask` equals
`ask_secure_bot` at that key, it never touches any other session's history,
and two successive successful UI questions starting from an empty store
read and append one shared transcript under "sec-bot-ui", interleaving both
exchanges in order. -/
theorem C9_ui_shared_session (retrieve : String → List String)
    (llm gpt : List Msg → Except String String) (store : Store)
    (q q1 q2 a1 a2 sid' : String) :
    ui_ask retrieve llm gpt store q = ask_secure_bot retrieve llm gpt store q ("sec-bot-ui")
    ∧ (sid' ≠ "sec-bot-ui" →
        ((ui_ask retrieve llm gpt store q).2.1).lookup sid' = store.lookup sid')
    ∧ (isDegenerate a1 = false → isDegenerate a2 = false →
        readHistory
          (ui_ask retrieve (fun _ => Except.ok a2) gpt
            (ui_ask retrieve (fun _ => Except.ok a1) gpt [] q1).2.1 q2).2.1
          ("sec-bot-ui")
        = [(Role.human, composePrompt (ctxOf (retrieve q1)) q1), (Role.ai, a1),
           (Role.human, composePrompt (ctxOf (retrieve q2)) q2), (Role.ai, a2)]) := by
  refine ⟨rfl, ?_, ?_⟩
  · intro hne
    exact lookup_askbot_other retrieve llm gpt store q ("sec-bot-ui") sid' hne
  · intro h1 h2
    have e1 : (ui_ask retrieve (fun _ => Except.ok a1) gpt [] q1).2.1
        = [("sec-bot-ui",
            [(Role.human, composePrompt (ctxOf (retrieve q1)) q1), (Role.ai, a1)])] := by
      unfold ui_ask ask_secure_bot
      rw [ask_bedrock_const_ok]
      simp [h1, get_session_history, List.lookup, setSession]
    rw [e1]
    unfold ui_ask ask_secure_bot
    rw [ask_bedrock_const_ok]
    simp [h2, get_session_history, List.lookup, setSession, readHistory]

theorem C9_ui_shared_session_witness :
    isDegenerate "ans-one" = false
    ∧ readHistory
        (ui_ask (fun _ => []) (fun _ => Except.ok ("ans-two")) (fun _ => Except.error (""))
          (ui_ask (fun _ => []) (fun _ => Except.ok ("ans-one")) (fun _ => Except.error (""))
            [] ("q1")).2.1
          ("q2")).2.1 ("sec-bot-ui")
      = [(Role.human, composePrompt (ctxOf []) ("q1")), (Role.ai, "ans-one"),
         (Role.human, composePrompt (ctxOf []) ("q2")), (Role.ai, "ans-two")] :=
  ⟨by decide,
   (C9_ui_shared_session (fun _ => []) (fun _ => Except.error (""))
      (fun _ => Except.error ("")) [] "x" "q1" "q2" "ans-one" "ans-two" "y").2.2
     (by decide) (by decide)⟩

/-- C10: the fallback generation request consists of exactly the static
system context (role `system`) and the raw question (role `user`): the
fallback provider is applied to `fallbackMessages q` only, and the fallback
answer is unchanged under any change of retriever results or session-store
contents — no retrieved chunks and no history turns reach the fallback. -/
theorem C10_fallback_prompt_minimal (retrieve retrieve' : String → List String)
    (gpt : List Msg → Except String String) (store store' : Store)
    (q sid sid' e e' : String) :
    fallbackMessages q = [(Role.system, SECURITY_CONTEXT), (Role.user, q)]
    ∧ (ask_secure_bot retrieve (fun _ => Except.error e) gpt store q sid).1
        = (match (gpt (fallbackMessages q)).map pyStrip with
           | Except.ok g => "🤖 **ChatGPT Fallback:**\n\n" ++ g
           | Except.error e2 => "❌ Both models failed: " ++ e2)
    ∧ (ask_secure_bot retrieve (fun _ => Except.error e) gpt store q sid).1
        = (ask_secure_bot retrieve' (fun _ => Except.error e') gpt store' q sid').1 := by
  refine ⟨rfl, ?_, ?_⟩
  · unfold ask_secure_bot
    rw [ask_bedrock_const_error]
    cases hg : gpt (fallbackMessages q) <;> simp [ask_chatgpt, hg, Except.map]
  · unfold ask_secure_bot
    rw [ask_bedrock_const_error, ask_bedrock_const_error]
    cases hg : gpt (fallbackMessages q) <;> simp [ask_chatgpt, hg, Except.map]
